import Mathlib

/-!
Verification development for the `rag-backend` context-parsing / query-classification /
response-generation core (`rag_engine.py`).

The Python source is shallowly embedded: every definition below is a direct functional
translation of the corresponding Python function.  Python regular-expression searches
are translated into explicit scanning functions whose semantics were derived from the
backtracking behaviour of `re.search` on the concrete pattern (greedy/lazy quantifiers
resolve deterministically for these patterns because every quantified class excludes
its delimiter).  Python `datetime` values are embedded as a `Date` record carrying the
current (UTC) date, passed explicitly to every function that reads the clock.
Python exceptions are embedded as `Option`/`Except` results.
-/

namespace Rag

/-! ## Basic string utilities (Python `in`, `startswith`, `strip`, `lower`) -/

def isWs (c : Char) : Bool := c.isWhitespace

/-- `listStartsWith needle hay`: `hay` begins with `needle` (case-sensitive). -/
def listStartsWith : List Char → List Char → Bool
  | [], _ => true
  | _ :: _, [] => false
  | a :: as, b :: bs => a == b && listStartsWith as bs

/-- Case-insensitive variant (Python `re.IGNORECASE` on ASCII literals). -/
def ciStartsWith : List Char → List Char → Bool
  | [], _ => true
  | _ :: _, [] => false
  | a :: as, b :: bs => a.toLower == b.toLower && ciStartsWith as bs

/-- Consume a case-insensitive literal, returning the remainder. -/
def ciStripLit : List Char → List Char → Option (List Char)
  | [], cs => some cs
  | _ :: _, [] => none
  | a :: as, b :: bs => if a.toLower == b.toLower then ciStripLit as bs else none

/-- `containsList needle hay`: Python `needle in hay` (substring test). -/
def containsList (needle : List Char) : List Char → Bool
  | [] => needle.isEmpty
  | c :: rest => listStartsWith needle (c :: rest) || containsList needle rest

/-- Python `needle in hay` on strings. -/
def strContains (hay needle : String) : Bool := containsList needle.toList hay.toList

/-- Python `str.lower()` (ASCII; the data never contains cased non-ASCII). -/
def lowerStr (s : String) : String := String.mk (s.toList.map Char.toLower)

/-- Python `str.strip()`: whitespace removed from both ends. -/
def trimList (cs : List Char) : String :=
  String.mk ((cs.dropWhile isWs).reverse.dropWhile isWs).reverse

/-- Python `str.strip()` on a string. -/
def pyStrip (s : String) : String := trimList s.toList

/-- Python `hay.startswith(pre)`. -/
def startsWithStr (hay pre : String) : Bool := listStartsWith pre.toList hay.toList

/-- Split on a separator character, keeping empty fields (Python `str.split(sep)`
with a one-character separator). -/
def splitCharList (sep : Char) : List Char → List (List Char)
  | [] => [[]]
  | c :: rest =>
    if c == sep then [] :: splitCharList sep rest
    else
      match splitCharList sep rest with
      | h :: t => (c :: h) :: t
      | [] => [[c]]

/-- Python `s.split('\n')`. -/
def splitLines (s : String) : List String := (splitCharList '\n' s.toList).map String.mk

/-- Python `s.split('-')`. -/
def splitDash (s : String) : List String := (splitCharList '-' s.toList).map String.mk

/-- Python `"\n".join(parts)`. -/
def joinNl : List String → String
  | [] => ""
  | h :: t => t.foldl (fun acc x => acc ++ "\n" ++ x) h

/-- Case-insensitive containment (`re.search(literal, hay, re.I)`). -/
def ciContains (hay needle : String) : Bool := strContains (lowerStr hay) (lowerStr needle)

/-- Split at the first occurrence of `t`: returns (before, after), `t` excluded. -/
def splitAtFirst (t : Char) : List Char → Option (List Char × List Char)
  | [] => none
  | c :: rest =>
    if c == t then some ([], rest)
    else
      match splitAtFirst t rest with
      | some (a, b) => some (c :: a, b)
      | none => none

/-! ## Dates (embedding of `datetime.utcnow().date()`, `timedelta`, `strptime`) -/

structure Date where
  year : Nat
  month : Nat
  day : Nat
deriving Repr, DecidableEq

def isLeap (y : Nat) : Bool := (y % 4 == 0 && y % 100 != 0) || y % 400 == 0

def daysInMonth (y m : Nat) : Nat :=
  if m == 2 then (if isLeap y then 29 else 28)
  else if m == 4 || m == 6 || m == 9 || m == 11 then 30
  else 31

def daysBeforeMonth (y m : Nat) : Nat :=
  (List.range (m - 1)).foldl (fun acc i => acc + daysInMonth y (i + 1)) 0

/-- Day number of a proleptic-Gregorian date (only differences are ever used). -/
def toRD (d : Date) : Int :=
  let p := d.year - 1
  ((365 * p + p / 4 - p / 100 + p / 400 + daysBeforeMonth d.year d.month + d.day : Nat) : Int)

def prevDate (d : Date) : Date :=
  if d.day > 1 then { d with day := d.day - 1 }
  else if d.month > 1 then { d with month := d.month - 1, day := daysInMonth d.year (d.month - 1) }
  else { year := d.year - 1, month := 12, day := 31 }

def pad2 (n : Nat) : String := if n < 10 then "0" ++ toString n else toString n

def pad4 (n : Nat) : String :=
  if n < 10 then "000" ++ toString n
  else if n < 100 then "00" ++ toString n
  else if n < 1000 then "0" ++ toString n
  else toString n

/-- `date.isoformat()`. -/
def isoOfDate (d : Date) : String := pad4 d.year ++ "-" ++ pad2 d.month ++ "-" ++ pad2 d.day

def natOfDigitsAux : List Char → Nat → Nat
  | [], acc => acc
  | c :: cs, acc => natOfDigitsAux cs (acc * 10 + (c.toNat - 48))

/-- Python `int` of a digit string. -/
def natOfDigits (cs : List Char) : Nat := natOfDigitsAux cs 0

/-- Validating parse of a `\d{4}-\d{2}-\d{2}` shaped string, as
`datetime.strptime(s, '%Y-%m-%d')` would when the shape is already 4-2-2:
returns `none` exactly when `strptime`/`datetime` raises (bad month/day/year 0). -/
def parseIso (s : String) : Option Date :=
  match s.toList with
  | [a, b, c, d, '-', e, f, '-', g, h] =>
    if [a, b, c, d, e, f, g, h].all Char.isDigit then
      let y := natOfDigits [a, b, c, d]
      let m := natOfDigits [e, f]
      let dd := natOfDigits [g, h]
      if 1 ≤ y && 1 ≤ m && m ≤ 12 && 1 ≤ dd && dd ≤ daysInMonth y m then some ⟨y, m, dd⟩
      else none
    else none
  | _ => none

def allDigits (s : String) : Bool := !s.toList.isEmpty && s.toList.all Char.isDigit

/-- Full `datetime.strptime(s, '%Y-%m-%d')`: year exactly 4 digits, month/day 1–2
digits, whole-string match, then calendar validation; `none` models `ValueError`. -/
def parseYmdFlex (s : String) : Option Date :=
  match splitDash s with
  | [ys, ms, ds] =>
    if ys.length == 4 && allDigits ys && allDigits ms && ms.length ≤ 2
        && allDigits ds && ds.length ≤ 2 then
      let y := natOfDigits ys.toList
      let m := natOfDigits ms.toList
      let dd := natOfDigits ds.toList
      if 1 ≤ y && 1 ≤ m && m ≤ 12 && 1 ≤ dd && dd ≤ daysInMonth y m then some ⟨y, m, dd⟩
      else none
    else none
  | _ => none

/-! ## Task records and `parse_task_line` -/

structure TaskRec where
  task_name : String
  urgency : String
  priority : String
  status : String
  due_date : String
  created_date : String
  task_id : Option String
  assigned_to : Option String := none
deriving Repr, DecidableEq

/-- Characters stripped by `re.sub(r"^[\s•→'-]+", "", line)`. -/
def taskStripChar (c : Char) : Bool :=
  c.isWhitespace || c == '•' || c == '→' || c == '\'' || c == '-'

/-- `re.sub(r"^[\s•→'-]+", "", line).strip()`. -/
def cleanTaskLine (line : String) : String :=
  trimList (line.toList.dropWhile taskStripChar)

/-- One attempt of `\[([^\]]+)\]\s*([^(]+?)\s*\((.*)\)\s*$` at a position just
after a `[`.  Group 1 runs to the first `]` (non-empty); group 2 is the text
between `]` and the first `(` (any non-empty segment; its Python-`strip`ped value
is the trim); group 3 is the remainder up to the last `)` that is followed only
by whitespace, and may not contain a newline (`.` does not match `\n`). -/
def mheadAttempt (cs : List Char) : Option (String × String × String) :=
  match splitAtFirst ']' cs with
  | none => none
  | some (g1, rest1) =>
    if g1.isEmpty then none
    else
      match splitAtFirst '(' rest1 with
      | none => none
      | some (seg, rest2) =>
        if seg.isEmpty then none
        else
          match rest2.reverse.dropWhile isWs with
          | ')' :: g3rev =>
            let g3 := g3rev.reverse
            if g3.contains '\n' then none
            else some (trimList g1, trimList seg, String.mk g3)
          | _ => none

/-- `re.search` of the head pattern: leftmost `[` admitting a successful attempt. -/
def mheadScan : List Char → Option (String × String × String)
  | [] => none
  | c :: rest =>
    if c == '[' then
      match mheadAttempt rest with
      | some r => some r
      | none => mheadScan rest
    else mheadScan rest

/-- `\s*(.+)` after a `]`: value is the Python-stripped group. -/
def tailText (rest : List Char) : Option String :=
  let rem := rest.dropWhile isWs
  if rem.isEmpty then
    if rest.any (fun c => c != '\n') then some "" else none
  else some (trimList (rem.takeWhile (fun c => c != '\n')))

/-- One attempt of pattern3 `\[([^\]]+)\]\s*(.+)` just after a `[`. -/
def p3Attempt (cs : List Char) : Option (String × String) :=
  match splitAtFirst ']' cs with
  | none => none
  | some (g1, rest1) =>
    if g1.isEmpty then none
    else
      match tailText rest1 with
      | some t => some (trimList g1, t)
      | none => none

def p3Scan : List Char → Option (String × String)
  | [] => none
  | c :: rest =>
    if c == '[' then
      match p3Attempt rest with
      | some r => some r
      | none => p3Scan rest
    else p3Scan rest

/-- `re.search(key ++ "\s*([^,)\]]+)", meta, re.I)` with the group Python-stripped.
On a failed occurrence the scan resumes one character later, as `re.search` does. -/
def metaFieldScan (key : List Char) : List Char → Option String
  | [] => none
  | c :: rest =>
    if ciStartsWith key (c :: rest) then
      let after := (c :: rest).drop key.length
      let w := after.takeWhile isWs
      let rem := after.dropWhile isWs
      let run := rem.takeWhile (fun c => !(c == ',' || c == ')' || c == ']'))
      if !run.isEmpty then some (trimList run)
      else if !w.isEmpty then some ""
      else metaFieldScan key rest
    else metaFieldScan key rest

def isoAt (cs : List Char) : Option String :=
  match cs with
  | a :: b :: c :: d :: '-' :: e :: f :: '-' :: g :: h :: _ =>
    if [a, b, c, d, e, f, g, h].all Char.isDigit then
      some (String.mk [a, b, c, d, '-', e, f, '-', g, h])
    else none
  | _ => none

/-- `re.search(r"Due:\s*([0-9]{4}-[0-9]{2}-[0-9]{2})", meta, re.I)`. -/
def metaDueScan : List Char → Option String
  | [] => none
  | c :: rest =>
    if ciStartsWith "due:".toList (c :: rest) then
      match isoAt (((c :: rest).drop 4).dropWhile isWs) with
      | some dstr => some dstr
      | none => metaDueScan rest
    else metaDueScan rest

/-- Record built from a successful head-pattern match (defaults exactly as in the
Python: priority "Medium", status "Active", due "No date", created "Unknown"). -/
def mkMheadRec (u n meta : String) : TaskRec :=
  let pm := metaFieldScan "priority:".toList meta.toList
  let sm := metaFieldScan "status:".toList meta.toList
  let dm := metaDueScan meta.toList
  let cm := metaFieldScan "created:".toList meta.toList
  let im := metaFieldScan "task id:".toList meta.toList
  { task_name := n
    urgency := u
    priority := pm.getD "Medium"
    status := sm.getD "Active"
    due_date := dm.getD "No date"
    -- Python: `created_date or "Unknown"` — an empty extracted value falls back too
    created_date := match cm with
      | some s => if s == "" then "Unknown" else s
      | none => "Unknown"
    task_id := im }

/-- `parse_task_line` (rag_engine.py:200-262). -/
def parse_task_line (line : String) : Option TaskRec :=
  match mheadScan (cleanTaskLine line).toList with
  | some (u, n, meta) => some (mkMheadRec u n meta)
  | none =>
    match p3Scan (cleanTaskLine line).toList with
    | some (u, n) =>
      some { task_name := n, urgency := u, priority := "Medium", status := "Active",
             due_date := "No date", created_date := "Unknown", task_id := none }
    | none =>
      if cleanTaskLine line == "" then none
      else
        some { task_name := cleanTaskLine line, urgency := "Unknown", priority := "Medium",
               status := "Active", due_date := "No date", created_date := "Unknown",
               task_id := none }

/-! ## Query classification (`classify_query_type`, rag_engine.py:569-694)

Every pattern used by the classifier is a sequence of fixed tokens separated by
`.*` gaps (alternations are expanded into several sequences).  `re.search`
returns a match iff the tokens occur in order, with no newline inside a gap
(`.` does not match `\n`); text before the first token is unconstrained. -/

inductive Tok where
  | lit : String → Tok
  | isoD : Tok
  | digit : Tok
deriving Repr

def stripLitCS : List Char → List Char → Option (List Char)
  | [], cs => some cs
  | _ :: _, [] => none
  | a :: as, b :: bs => if a == b then stripLitCS as bs else none

/-- Match one token at the head of the input, returning the remainder.
`digit` stands for `\d+` in last position, where consuming one digit is
equivalent for match existence. -/
def tokHead : Tok → List Char → Option (List Char)
  | .lit s, cs => if s.toList.isEmpty then none else stripLitCS s.toList cs
  | .isoD, cs =>
    match cs with
    | a :: b :: c :: d :: '-' :: e :: f :: '-' :: g :: h :: rest =>
      if [a, b, c, d, e, f, g, h].all Char.isDigit then some rest else none
    | _ => none
  | .digit, cs =>
    match cs with
    | c :: rest => if c.isDigit then some rest else none
    | [] => none

/-- Fuelled matcher: tokens of `ts` occur in order in `cs`, each gap free of
`\n`.  Every step consumes at least one character, so `cs.length + 1` fuel is
always sufficient; `seqRun` below supplies it. -/
def seqRunF : Nat → List Tok → List Char → Bool
  | _, [], _ => true
  | 0, _ :: _, _ => false
  | fuel + 1, t :: ts, cs =>
    (match tokHead t cs with
     | some r => seqRunF fuel ts r
     | none => false)
    || (match cs with
        | [] => false
        | c :: rest => c != '\n' && seqRunF fuel (t :: ts) rest)

def seqRun (ts : List Tok) (cs : List Char) : Bool := seqRunF (cs.length + 1) ts cs

/-- `re.search`: match may start anywhere (characters before it unconstrained). -/
def seqSearch (ts : List Tok) : List Char → Bool
  | [] => seqRun ts []
  | c :: rest => seqRun ts (c :: rest) || seqSearch ts rest

def reSearchAny (pats : List (List Tok)) (s : String) : Bool :=
  pats.any (fun p => seqSearch p s.toList)

def fieldSpecificPats : List (List Tok) :=
  [[.lit "what", .lit "created", .lit "date"], [.lit "when", .lit "created", .lit "date"],
   [.lit "what", .lit "due", .lit "date"], [.lit "when", .lit "due", .lit "date"],
   [.lit "what", .lit "status"], [.lit "show", .lit "status"],
   [.lit "what", .lit "priority"], [.lit "show", .lit "priority"],
   [.lit "what", .lit "description"], [.lit "show", .lit "description"],
   [.lit "when", .lit "task", .lit "created"],
   [.lit "when", .lit "task", .lit "due"],
   [.lit "what", .lit "task", .lit "status"],
   [.lit "specific task"],
   [.lit "task", .lit "named"],
   [.lit "task", .lit "called"]]

def dateMessagePats : List (List Tok) :=
  [[.lit "message", .lit "september", .digit],
   [.lit "message", .isoD],
   [.lit "message", .lit "yesterday"],
   [.lit "message", .lit "last", .lit "week"],
   [.lit "message", .lit "last", .lit "month"]]

def kanbanPats : List (List Tok) :=
  [[.lit "kanban", .lit "task"], [.lit "board", .lit "task"], [.lit "kanban", .lit "column"],
   [.lit "what", .lit "on", .lit "kanban"], [.lit "kanban", .lit "status"],
   [.lit "show", .lit "kanban"]]

def attachmentPats : List (List Tok) :=
  [[.lit "attachment"], [.lit "file", .lit "upload"], [.lit "document", .lit "attach"],
   [.lit "what", .lit "file"], [.lit "show", .lit "attachment"]]

def teamTaskPats : List (List Tok) :=
  [[.lit "show", .lit "all", .lit "team", .lit "task"],
   [.lit "all", .lit "team", .lit "member", .lit "task"],
   [.lit "team", .lit "task"],
   [.lit "show", .lit "all", .lit "management", .lit "task"],
   [.lit "show", .lit "all", .lit "intern", .lit "task"],
   [.lit "show", .lit "all", .lit "lead", .lit "task"],
   [.lit "show", .lit "all", .lit "member", .lit "task"]]

def strongTaskPats : List (List Tok) :=
  [[.lit "what", .lit "should", .lit "complete"],
   [.lit "what", .lit "should", .lit "do"],
   [.lit "my", .lit "task"],
   [.lit "my", .lit "overdue"],
   [.lit "complete", .lit "today"],
   [.lit "work", .lit "today"]]

def strongMessagePats : List (List Tok) :=
  [[.lit "did", .lit "get", .lit "message"],
   [.lit "any", .lit "message", .lit "from"],
   [.lit "got", .lit "any", .lit "message"],
   [.lit "hear", .lit "from"]]

def taskKeywords : List String := ["task", "work", "complete", "priority", "due"]

def messageKeywords : List String := ["message", "chat", "said", "told"]

/-- `classify_query_type` (rag_engine.py:569-694).  The `team_members` argument
is accepted but — exactly as in the source — never consulted. -/
def classify_query_type (query : String) (team_members : List String) : String :=
  let ql := lowerStr query
  if reSearchAny fieldSpecificPats ql then "field_specific_query"
  else if reSearchAny dateMessagePats ql then "date_message_query"
  else if reSearchAny kanbanPats ql then "kanban_query"
  else if reSearchAny attachmentPats ql then "attachment_query"
  else if reSearchAny teamTaskPats ql then "team_task_query"
  else if reSearchAny strongTaskPats ql then "task_query"
  else if reSearchAny strongMessagePats ql then "message_query"
  else
    let task_score := (taskKeywords.filter (fun k => strContains ql k)).length
    let message_score := (messageKeywords.filter (fun k => strContains ql k)).length
    if task_score ≥ message_score && task_score > 0 then "task_query"
    else if message_score > 0 then "message_query"
    else "general_query"

/-! ## Message records and `parse_message_line` (rag_engine.py:439-566) -/

structure MsgRec where
  sender_name : String
  message_content : String
  timestamp_str : String
  recency : String
  message_count : Nat
deriving Repr, DecidableEq

/-- Tail of message pattern 0 after the literal `Latest`:
`\s*\(([^)]+)\):\s*(.+)` — returns (timestamp, content), Python-stripped. -/
def latestTail (cs : List Char) : Option (String × String) :=
  match cs.dropWhile isWs with
  | '(' :: r2 =>
    match splitAtFirst ')' r2 with
    | some (g3, r3) =>
      if g3.isEmpty then none
      else
        match r3 with
        | ':' :: r4 =>
          match tailText r4 with
          | some content => some (trimList g3, content)
          | none => none
        | _ => none
    | none => none
  | _ => none

/-- The lazy gap `.*?Latest...` of pattern 0: scan for the first (case-insensitive)
`latest` whose tail matches; gap characters must not be newlines. -/
def latestGapScan : List Char → Option (String × String)
  | [] => none
  | c :: rest =>
    if ciStartsWith "latest".toList (c :: rest) then
      match latestTail ((c :: rest).drop 6) with
      | some r => some r
      | none => if c != '\n' then latestGapScan rest else none
    else if c != '\n' then latestGapScan rest else none

/-- Pattern 0 after the literal `From`:
`\s+([^(]+?)\s*\((\d+)\s*messages?\).*?Latest\s*\(([^)]+)\):\s*(.+)`.
The sender segment runs to the first `(`, must start with whitespace (the `\s+`)
and have length ≥ 2; its Python-stripped value is the trim.  Returns
(sender, count, timestamp, content). -/
def pat0AfterFrom (cs : List Char) : Option (String × Nat × String × String) :=
  match splitAtFirst '(' cs with
  | none => none
  | some (seg, r1) =>
    match seg with
    | s0 :: _ :: _ =>
      if isWs s0 then
        let digits := r1.takeWhile Char.isDigit
        if digits.isEmpty then none
        else
          match ciStripLit "message".toList ((r1.drop digits.length).dropWhile isWs) with
          | none => none
          | some r3 =>
            let r4 := match r3 with
              | c :: rest => if c.toLower == 's' then rest else r3
              | [] => r3
            match r4 with
            | ')' :: r5 =>
              match latestGapScan r5 with
              | some (ts, content) =>
                some (trimList seg, natOfDigits digits, ts, content)
              | none => none
            | _ => none
      else none
    | _ => none

def pat0Scan : List Char → Option (String × Nat × String × String)
  | [] => none
  | c :: rest =>
    if ciStartsWith "from".toList (c :: rest) then
      match pat0AfterFrom ((c :: rest).drop 4) with
      | some r => some r
      | none => pat0Scan rest
    else pat0Scan rest

/-- Pattern 1 after the literal `From`: `\s+([^:]+):\s*([^(]+)\s*\(([^)]+)\)`.
Returns (sender, content, timestamp), Python-stripped. -/
def pat1AfterFrom (cs : List Char) : Option (String × String × String) :=
  match splitAtFirst ':' cs with
  | none => none
  | some (seg, r1) =>
    match seg with
    | s0 :: _ :: _ =>
      if isWs s0 then
        match splitAtFirst '(' r1 with
        | none => none
        | some (seg2, r2) =>
          if seg2.isEmpty then none
          else
            match splitAtFirst ')' r2 with
            | none => none
            | some (g3, _) =>
              if g3.isEmpty then none
              else some (trimList seg, trimList seg2, trimList g3)
      else none
    | _ => none

def pat1Scan : List Char → Option (String × String × String)
  | [] => none
  | c :: rest =>
    if ciStartsWith "from".toList (c :: rest) then
      match pat1AfterFrom ((c :: rest).drop 4) with
      | some r => some r
      | none => pat1Scan rest
    else pat1Scan rest

/-- The content group of pattern 2, `\s*(.+?)\s*` before a candidate `(`:
succeeds iff the segment trims to a non-empty newline-free core (value: the
trim), or is whitespace containing a non-newline character (value: ""). -/
def contentOf (craw : List Char) : Option String :=
  let t := trimList craw
  if t != "" then
    if t.toList.contains '\n' then none else some t
  else if craw.any (fun c => c != '\n') then some "" else none

/-- Tail of pattern 2 after a candidate `(`: `([^,]+),\s*([^)]+)\)` —
returns (timestamp, date), Python-stripped. -/
def pat2Tail (cs : List Char) : Option (String × String) :=
  match splitAtFirst ',' cs with
  | none => none
  | some (g3, r) =>
    if g3.isEmpty then none
    else
      match splitAtFirst ')' r with
      | none => none
      | some (seg4, _) =>
        if seg4.isEmpty then none
        else some (trimList g3, trimList seg4)

/-- Lazy search over `(` candidates for pattern 2's `(.+?)\s*\((...)` part:
first `(` (left to right) whose preceding segment forms valid content and whose
tail matches wins.  Returns (content, timestamp, date). -/
def pat2FindParen (pre : List Char) : List Char → Option (String × String × String)
  | [] => none
  | '(' :: rest =>
    (match contentOf pre, pat2Tail rest with
     | some content, some (ts, ds) => some (content, ts, ds)
     | _, _ => pat2FindParen (pre ++ ['(']) rest)
  | c :: rest => pat2FindParen (pre ++ [c]) rest

/-- Pattern 2 after a bullet: `\s*From\s+([^:]+):\s*(.+?)\s*\(([^,]+),\s*([^)]+)\)`.
Returns (sender, content, timestamp, date). -/
def pat2AfterBullet (cs : List Char) : Option (String × String × String × String) :=
  match ciStripLit "from".toList (cs.dropWhile isWs) with
  | none => none
  | some r1 =>
    match splitAtFirst ':' r1 with
    | none => none
    | some (seg, r2) =>
      match seg with
      | s0 :: _ :: _ =>
        if isWs s0 then
          match pat2FindParen [] r2 with
          | some (content, ts, ds) => some (trimList seg, content, ts, ds)
          | none => none
        else none
      | _ => none

def pat2Scan : List Char → Option (String × String × String × String)
  | [] => none
  | c :: rest =>
    if c == '•' || c == '➤' then
      match pat2AfterBullet rest with
      | some r => some r
      | none => pat2Scan rest
    else pat2Scan rest

/-- Pattern 3 after a bullet: `\s*From\s+([^:]+):\s*(.+)` — (sender, content). -/
def pat3AfterBullet (cs : List Char) : Option (String × String) :=
  match ciStripLit "from".toList (cs.dropWhile isWs) with
  | none => none
  | some r1 =>
    match splitAtFirst ':' r1 with
    | none => none
    | some (seg, r2) =>
      match seg with
      | s0 :: _ :: _ =>
        if isWs s0 then
          match tailText r2 with
          | some content => some (trimList seg, content)
          | none => none
        else none
      | _ => none

def pat3Scan : List Char → Option (String × String)
  | [] => none
  | c :: rest =>
    if c == '•' || c == '➤' then
      match pat3AfterBullet rest with
      | some r => some r
      | none => pat3Scan rest
    else pat3Scan rest

/-- Pattern 4 after a bullet: `\s*([^:]+?):\s*(.+)` — (sender, content). -/
def pat4AfterBullet (cs : List Char) : Option (String × String) :=
  match splitAtFirst ':' cs with
  | none => none
  | some (seg, r2) =>
    if seg.isEmpty then none
    else
      match tailText r2 with
      | some content => some (trimList seg, content)
      | none => none

def pat4Scan : List Char → Option (String × String)
  | [] => none
  | c :: rest =>
    if c == '•' || c == '➤' then
      match pat4AfterBullet rest with
      | some r => some r
      | none => pat4Scan rest
    else pat4Scan rest

/-- Leftmost `\d{4}-\d{2}-\d{2}` substring. -/
def isoScan : List Char → Option String
  | [] => none
  | c :: rest =>
    match isoAt (c :: rest) with
    | some s => some s
    | none => isoScan rest

/-- Recency derivation of `parse_message_line` (rag_engine.py:504-556):
section markers in the original line take precedence; otherwise the first ISO
date in `date_str or timestamp_str or ""` is compared with today/yesterday,
then bucketed by day difference (≤ 7 → this_week, else older); any
`strptime` failure leaves the default "this_week". -/
def msgRecency (today : Date) (line : String) (dateStr : Option String) (ts : String) : String :=
  if strContains line "TODAY:" then "today"
  else if strContains line "YESTERDAY:" then "yesterday"
  else
    let dtc := match dateStr with
      | some d => if d != "" then d else (if ts != "" then ts else "")
      | none => if ts != "" then ts else ""
    match isoScan dtc.toList with
    | none => "this_week"
    | some datePart =>
      if datePart == isoOfDate today then "today"
      else if datePart == isoOfDate (prevDate today) then "yesterday"
      else
        match parseIso datePart with
        | none => "this_week"
        | some d => if toRD today - toRD d ≤ 7 then "this_week" else "older"

/-- Pattern dispatch of `parse_message_line`: the five patterns are tried in
order; result is (sender, content, timestamp, optional date, count). -/
def msgExtract (cs : List Char) : Option (String × String × String × Option String × Nat) :=
  match pat0Scan cs with
  | some (s, n, ts, c) => some (s, c, ts, none, n)
  | none =>
    match pat1Scan cs with
    | some (s, c, ts) => some (s, c, ts, none, 1)
    | none =>
      match pat2Scan cs with
      | some (s, c, ts, ds) => some (s, c, ts, some ds, 1)
      | none =>
        match pat3Scan cs with
        | some (s, c) => some (s, c, "recent", none, 1)
        | none =>
          match pat4Scan cs with
          | some (s, c) => some (s, c, "recent", none, 1)
          | none => none

/-- `parse_message_line` (rag_engine.py:439-566).  A sender that strips to the
empty string makes `if not sender_name: return None` fire, hence `none`. -/
def parse_message_line (today : Date) (line : String) : Option MsgRec :=
  match msgExtract line.toList with
  | none => none
  | some (s, c, ts, ds, n) =>
    if s == "" then none
    else
      some { sender_name := s, message_content := c, timestamp_str := ts,
             recency := msgRecency today line ds ts, message_count := n }

/-! ## Context aggregation (`parse_user_context`, rag_engine.py:21-194) -/

structure Tasks where
  overdue : List TaskRec
  today : List TaskRec
  upcoming : List TaskRec
  total_count : Nat
deriving Repr, DecidableEq

structure Messages where
  today : List MsgRec
  yesterday : List MsgRec
  this_week : List MsgRec
  total_count : Nat
  by_sender : List (String × List MsgRec)
deriving Repr, DecidableEq

structure ParsedData where
  tasks : Tasks
  team_tasks : List (String × List TaskRec)
  messages : Messages
  team_members : List String
deriving Repr, DecidableEq

def emptyParsedData : ParsedData :=
  { tasks := { overdue := [], today := [], upcoming := [], total_count := 0 }
    team_tasks := []
    messages := { today := [], yesterday := [], this_week := [], total_count := 0, by_sender := [] }
    team_members := [] }

inductive Sect where
  | noneSect | tasksSect | teamSect | msgsSect
deriving Repr, DecidableEq

structure PState where
  pd : ParsedData
  sec : Sect
  user : Option String
deriving Repr, DecidableEq

def initPState : PState := { pd := emptyParsedData, sec := .noneSect, user := none }

/-- Header detection for the personal-tasks section (rag_engine.py:68-75);
containment and `startswith` checks run on the stripped line. -/
def personalHeader (l : String) : Bool :=
  strContains l "YOUR ACTIVE TASKS:" || strContains l "YOUR KANBAN TASKS:" ||
  startsWithStr l "🚨 OVERDUE TASKS:" || startsWithStr l "📅 DUE TODAY:" ||
  startsWithStr l "📆 DUE TOMORROW:" || startsWithStr l "📅 THIS WEEK:"

def isWordChar (c : Char) : Bool := c.isAlphanum || c == '_'

/-- `re.search(r"^\s*TEAM\s+TASKS\b", line, re.I)`. -/
def teamTasksRegex (l : String) : Bool :=
  match ciStripLit "team".toList (l.toList.dropWhile isWs) with
  | none => false
  | some r1 =>
    if (r1.takeWhile isWs).isEmpty then false
    else
      match ciStripLit "tasks".toList (r1.dropWhile isWs) with
      | none => false
      | some r2 =>
        match r2 with
        | [] => true
        | c :: _ => !isWordChar c

/-- Header detection for the team-tasks section (rag_engine.py:81-89). -/
def teamHeader (l : String) : Bool :=
  strContains l "TECH TEAM - ACTIVE TASKS:" || strContains l "TECH TEAM - KANBAN TASKS:" ||
  strContains l "TEAM LEADS - ACTIVE TASKS:" || strContains l "TEAM LEADS - KANBAN TASKS:" ||
  strContains l "MEMBERS - ACTIVE TASKS:" || strContains l "MEMBERS - KANBAN TASKS:" ||
  teamTasksRegex l

/-- First messages-header branch (rag_engine.py:95-96): the `:?` makes the third
regex literal equivalent to containment of "recent messages". -/
def msgHeaderA (l : String) : Bool :=
  ciContains l "team messages:" || ciContains l "message data" || ciContains l "recent messages" ||
  startsWithStr (pyStrip l) "🧾 Recent Messages"

/-- Second messages-header branch (rag_engine.py:101-103); only its extra
case-sensitive "TEAM MESSAGES" containment can fire after `msgHeaderA` failed. -/
def msgHeaderB (l : String) : Bool := msgHeaderA l || strContains l "TEAM MESSAGES"

/-- `re.search(r"👤\s*([^:]+):", line)`: segment between a `👤` and the first
following `:`, non-empty, Python-stripped; failed occurrences resume the scan. -/
def userScan : List Char → Option String
  | [] => none
  | c :: rest =>
    if c == '👤' then
      match splitAtFirst ':' rest with
      | some (seg, _) => if seg.isEmpty then userScan rest else some (trimList seg)
      | none => userScan rest
    else userScan rest

/-- Python truthiness of `current_user` (`None` and `""` are falsy). -/
def userTruthy : Option String → Bool
  | some u => u != ""
  | none => false

def assocEnsure (k : String) (l : List (String × List TaskRec)) : List (String × List TaskRec) :=
  if l.any (fun p => p.1 == k) then l else l ++ [(k, [])]

def memberEnsure (k : String) (l : List String) : List String :=
  if l.contains k then l else l ++ [k]

/-- Append to the entry of key `k` (the key always exists when called from the
aggregator, having been registered by the user-header branch). -/
def assocAppendTask (k : String) (t : TaskRec) : List (String × List TaskRec) →
    List (String × List TaskRec)
  | [] => [(k, [t])]
  | p :: rest => if p.1 == k then (p.1, p.2 ++ [t]) :: rest else p :: assocAppendTask k t rest

/-- `by_sender` dict update: append under existing key, else insert at the end. -/
def bySenderAdd (k : String) (m : MsgRec) : List (String × List MsgRec) →
    List (String × List MsgRec)
  | [] => [(k, [m])]
  | p :: rest => if p.1 == k then (p.1, p.2 ++ [m]) :: rest else p :: bySenderAdd k m rest

/-- Bucket a personal task by its urgency tag (rag_engine.py:134-143). -/
def addPersonalTask (pd : ParsedData) (t : TaskRec) : ParsedData :=
  let ts := pd.tasks
  let ts := { ts with total_count := ts.total_count + 1 }
  let ts :=
    if t.urgency == "OVERDUE" then { ts with overdue := ts.overdue ++ [t] }
    else if t.urgency == "DUE TODAY" then { ts with today := ts.today ++ [t] }
    else { ts with upcoming := ts.upcoming ++ [t] }
  { pd with tasks := ts }

/-- Team task: `task_info["assigned_to"] = current_user` then append (lines 149-152). -/
def addTeamTask (pd : ParsedData) (u : String) (t : TaskRec) : ParsedData :=
  { pd with team_tasks := assocAppendTask u { t with assigned_to := some u } pd.team_tasks }

/-- Bucket a message by recency and group by sender (rag_engine.py:159-175). -/
def addMessage (pd : ParsedData) (m : MsgRec) : ParsedData :=
  let ms := pd.messages
  let ms := { ms with total_count := ms.total_count + 1 }
  let ms :=
    if m.recency == "today" then { ms with today := ms.today ++ [m] }
    else if m.recency == "yesterday" then { ms with yesterday := ms.yesterday ++ [m] }
    else { ms with this_week := ms.this_week ++ [m] }
  let ms := { ms with by_sender := bySenderAdd m.sender_name m ms.by_sender }
  { pd with messages := ms }

def bulletStart (l : String) : Bool :=
  startsWithStr l "•" || startsWithStr l "→" || startsWithStr l "-" || startsWithStr l "  •"

/-- Bullet-content dispatch (rag_engine.py:129-178). -/
def handleBullet (today : Date) (st : PState) (line : String) : PState :=
  if bulletStart line then
    match st.sec with
    | .tasksSect =>
      match parse_task_line line with
      | some t => { st with pd := addPersonalTask st.pd t }
      | none => st
    | .teamSect =>
      if userTruthy st.user then
        match st.user with
        | some u =>
          match parse_task_line line with
          | some t => { st with pd := addTeamTask st.pd u t }
          | none => st
        | none => st
      else st
    | .msgsSect =>
      match parse_message_line today line with
      | some m => { st with pd := addMessage st.pd m }
      | none => st
    | .noneSect => st
  else st

/-- User-header registration (rag_engine.py:117-126). -/
def registerUser (st : PState) (u : String) : PState :=
  { st with
    pd := { st.pd with
            team_tasks := assocEnsure u st.pd.team_tasks
            team_members := memberEnsure u st.pd.team_members }
    user := some u }

/-- Processing of one raw line of the context (body of the loop at
rag_engine.py:60-178). -/
def pstep (today : Date) (st : PState) (raw : String) : PState :=
  let line := pyStrip raw
  if line == "" then st
  else if personalHeader line then { st with sec := .tasksSect, user := none }
  else if teamHeader line then { st with sec := .teamSect, user := none }
  else if msgHeaderA line then { st with sec := .msgsSect, user := none }
  else if msgHeaderB line then { st with sec := .msgsSect, user := none }
  else if startsWithStr line "👤" then
    let st1 := if st.sec != Sect.teamSect then { st with sec := .teamSect } else st
    match userScan line.toList with
    | some u => registerUser st1 u
    | none => handleBullet today st1 line
  else handleBullet today st line

/-- `parse_user_context` (rag_engine.py:21-194). -/
def parse_user_context (today : Date) (ctx : String) : ParsedData :=
  if pyStrip ctx == "" then emptyParsedData
  else ((splitLines ctx).foldl (pstep today) initPState).pd

/-! ## Task responses (rag_engine.py:752-884, 1336-1395) -/

def priorityEmoji (p : String) : String :=
  if p == "High" then "🔴" else if p == "Medium" then "🟡" else "🟢"

/-- `(datetime.now() - strptime(due)).days` with the `except: 0` fallback
(rag_engine.py:810-818).  The `.days` floor of the positive time-of-day offset
equals the plain day-number difference. -/
def daysOverdue (today : Date) (due : String) : Int :=
  if due != "No date" then
    match parseYmdFlex due with
    | some d => toRD today - toRD d
    | none => 0
  else 0

/-- Python renders a `None` task id through an f-string as the text "None". -/
def displayTaskId : Option String → String
  | some s => s
  | none => "None"

/-- One task block of `handle_overdue_tasks` (the `.strip()`ped f-string). -/
def overdueBlock (today : Date) (i : Nat) (t : TaskRec) : String :=
  "**" ++ toString i ++ ". " ++ t.task_name ++ "** " ++ priorityEmoji t.priority ++
  "\n   • **Due Date:** " ++ t.due_date ++ " ⚠️ (" ++ toString (daysOverdue today t.due_date) ++
  " days overdue)\n   • **Priority:** " ++ t.priority ++
  "\n   • **Status:** " ++ t.status ++
  "\n   • **Created:** " ++ t.created_date ++
  "\n   • **Task ID:** " ++ displayTaskId t.task_id

/-- `handle_overdue_tasks` (rag_engine.py:786-845).  Only ever called with a
non-empty list (both call sites are guarded); the `head?.getD` default is
unreachable there, where Python would instead raise on `[0]`. -/
def handle_overdue_tasks (today : Date) (overdue_tasks : List TaskRec) (query : String) : String :=
  let count := overdue_tasks.length
  let firstName := ((overdue_tasks.head?).map (fun t => t.task_name)).getD ""
  let highCount := (overdue_tasks.filter (fun t => t.priority == "High")).length
  joinNl
    (["🚨 **CRITICAL ALERT: " ++ toString count ++ " Overdue Task" ++
        (if count > 1 then "s" else "") ++ "**",
      "",
      "**Status:** Your schedule requires immediate attention.",
      "**Action Required:** Please prioritize the following tasks:",
      ""]
     ++ (overdue_tasks.enum.map (fun p => overdueBlock today (p.1 + 1) p.2))
     ++ ["",
         "---",
         "**📋 Immediate Action Plan:**",
         "1️⃣ **Start immediately with:** '" ++ firstName ++ "'",
         "2️⃣ **Clear your calendar** to focus on overdue items",
         "3️⃣ **Notify stakeholders** about any delays",
         "4️⃣ **Request deadline extensions** if needed",
         "",
         "**💡 Professional Tip:** Tackle high-priority overdue tasks first, then work chronologically by due date.",
         "",
         "**📊 Overview:** " ++ toString count ++ " overdue, " ++ toString highCount ++
           " high priority"])

/-- `handle_today_tasks` (rag_engine.py:847-883). -/
def handle_today_tasks (today_tasks : List TaskRec) (query : String) : String :=
  let count := today_tasks.length
  let header := "📅 **You have " ++ toString count ++ " task" ++
    (if count > 1 then "s" else "") ++ " due TODAY:**"
  let taskLines := today_tasks.enum.map (fun p =>
    toString (p.1 + 1) ++ ". " ++ priorityEmoji p.2.priority ++ " **" ++ p.2.task_name ++
    "** (Priority: " ++ p.2.priority ++ ")")
  let hp := today_tasks.filter (fun t => t.priority == "High")
  let rec_ := match hp.head? with
    | some t => ["", "**💡 Recommendation:** Start with HIGH priority: **" ++ t.task_name ++ "**"]
    | none =>
      ["", "**💡 Recommendation:** Start with: **" ++
        (((today_tasks.head?).map (fun t => t.task_name)).getD "") ++
        "** and work systematically through the list."]
  joinNl ([header, ""] ++ taskLines ++ rec_)

/-- Sort key of `handle_upcoming_tasks` (rag_engine.py:1343). -/
def upcomingKey (t : TaskRec) : String :=
  if t.due_date != "No date" then t.due_date else "2999-12-31"

/-- `handle_upcoming_tasks` (rag_engine.py:1336-1379): Python `sorted` is stable
with lexicographic string comparison, embedded as a stable merge sort. -/
def handle_upcoming_tasks (upcoming_tasks : List TaskRec) (query : String) : String :=
  let count := upcoming_tasks.length
  let sorted_tasks := upcoming_tasks.mergeSort (fun a b => decide (upcomingKey a ≤ upcomingKey b))
  let shown := (sorted_tasks.take 5).enum.map (fun p =>
    toString (p.1 + 1) ++ ". **" ++ p.2.task_name ++ "** (Due: " ++ p.2.due_date ++
    ", Priority: " ++ p.2.priority ++ ")")
  let more := if count > 5 then ["...and " ++ toString (count - 5) ++ " more upcoming tasks"] else []
  let nextPart := match sorted_tasks.head? with
    | some t =>
      ["",
       "**💡 Perfect time to get ahead!**",
       "🎯 **Consider starting early on: '" ++ t.task_name ++ "' (Due: " ++ t.due_date ++ ")**",
       "",
       "**Other options:**",
       "• Focus on professional development",
       "• Review and organize your workflow",
       "• Plan ahead for upcoming projects"]
    | none => []
  joinNl
    (["✅ **Excellent! No tasks due today.**",
      "📈 You have " ++ toString count ++ " upcoming task" ++
        (if count > 1 then "s" else "") ++ ":",
      ""] ++ shown ++ more ++ nextPart)

/-- `handle_no_tasks` (rag_engine.py:1381-1395): a fixed positive message. -/
def handle_no_tasks (query : String) : String :=
  "🎉 **Outstanding! No pending tasks found.**\n\nYou're completely caught up! This is perfect timing to:\n• 🚀 Plan ahead for upcoming projects  \n• 📚 Focus on professional development\n• 🧘 Take a well-deserved break\n• 🗂️ Review and organize your workflow\n• 💡 Brainstorm new ideas or improvements\n\n**Keep up the excellent work!** You're ahead of schedule and in great shape."

def overdueKeywords : List String := ["overdue", "past due", "late"]

def hasOverdueKw (query : String) : Bool :=
  overdueKeywords.any (fun k => strContains (lowerStr query) k)

/-- `generate_task_response` (rag_engine.py:752-784): an explicit overdue
keyword (with a non-empty overdue bucket) short-circuits to the overdue
handler; otherwise the dispatch order is today, overdue, upcoming, none. -/
def generate_task_response (today : Date) (query : String) (pd : ParsedData) : String :=
  let tasks := pd.tasks
  if hasOverdueKw query && !tasks.overdue.isEmpty then
    handle_overdue_tasks today tasks.overdue query
  else if !tasks.today.isEmpty then handle_today_tasks tasks.today query
  else if !tasks.overdue.isEmpty then handle_overdue_tasks today tasks.overdue query
  else if !tasks.upcoming.isEmpty then handle_upcoming_tasks tasks.upcoming query
  else handle_no_tasks query

/-! ## Message responses (rag_engine.py:1399-1512) -/

/-- The messages collected for a named person: all `by_sender` lists whose
sender key contains the person's name case-insensitively (rag_engine.py:1431-1434). -/
def personMessages (messages : Messages) (person : String) : List MsgRec :=
  (messages.by_sender.filter (fun p => strContains (lowerStr p.1) (lowerStr person))).foldl
    (fun acc p => acc ++ p.2) []

/-- The person-specific zero-result text (rag_engine.py:1453). -/
def noMsgsFromText (person : String) : String :=
  "❌ **No recent messages from " ++ person ++
  ".**\n\nTry checking the spelling or look at your full message history."

/-- `handle_person_specific_messages` (rag_engine.py:1428-1453). -/
def handle_person_specific_messages (messages : Messages) (person : String) (query : String) :
    String :=
  let person_messages := personMessages messages person
  if !person_messages.isEmpty then
    let today_msgs := person_messages.filter (fun m => m.recency == "today")
    let tpart := if !today_msgs.isEmpty then
        "**Today:**" :: (today_msgs.take 3).map (fun m =>
          "• " ++ m.timestamp_str ++ ": " ++ m.message_content)
      else []
    let y_msgs := person_messages.filter (fun m => m.recency == "yesterday")
    let ypart := if !y_msgs.isEmpty then
        "**Yesterday:**" :: (y_msgs.take 2).map (fun m =>
          "• " ++ m.timestamp_str ++ ": " ++ m.message_content)
      else []
    joinNl
      (["✅ **Yes, you received messages from " ++ person ++ ":**", ""] ++ tpart ++ ypart)
  else noMsgsFromText person

/-- `handle_today_messages` (rag_engine.py:1455-1469). -/
def handle_today_messages (messages : Messages) (query : String) : String :=
  let tm := messages.today
  if !tm.isEmpty then
    let count := tm.length
    joinNl
      (("📧 **You received " ++ toString count ++ " message" ++
          (if count > 1 then "s" else "") ++ " today:**") :: "" ::
        (tm.take 5).map (fun m =>
          "• **" ++ m.sender_name ++ "** (" ++ m.timestamp_str ++ "): " ++ m.message_content))
  else "❌ **No messages received today.**\n\n🔭 Your inbox is empty for today."

/-- `handle_yesterday_messages` (rag_engine.py:1471-1485). -/
def handle_yesterday_messages (messages : Messages) (query : String) : String :=
  let ym := messages.yesterday
  if !ym.isEmpty then
    let count := ym.length
    joinNl
      (("📧 **You received " ++ toString count ++ " message" ++
          (if count > 1 then "s" else "") ++ " yesterday:**") :: "" ::
        (ym.take 5).map (fun m =>
          "• **" ++ m.sender_name ++ "** (" ++ m.timestamp_str ++ "): " ++ m.message_content))
  else "❌ **No messages received yesterday.**"

/-- The "no messages at all" text of `handle_general_messages` (rag_engine.py:1493). -/
def noMessagesText : String :=
  "❌ **No recent messages found.**\n\nCheck your message settings or try refreshing."

/-- `handle_general_messages` (rag_engine.py:1487-1512).  `sorted(..., reverse=True)`
on message counts is stable, embedded as a stable merge sort on `≥`. -/
def handle_general_messages (messages : Messages) (query : String) : String :=
  if messages.total_count == 0 then noMessagesText
  else
    let p2 := if !messages.today.isEmpty then
        ["**Today:** " ++ toString messages.today.length ++ " messages"] else []
    let p3 := if !messages.yesterday.isEmpty then
        ["**Yesterday:** " ++ toString messages.yesterday.length ++ " messages"] else []
    let p4 := if !messages.this_week.isEmpty then
        ["**This week:** " ++ toString messages.this_week.length ++ " messages"] else []
    let p5 := if !messages.by_sender.isEmpty then
        "\n**Most active contacts:**" ::
          (((messages.by_sender.mergeSort (fun a b => b.2.length ≤ a.2.length)).take 3).map
            (fun p => "• " ++ p.1 ++ ": " ++ toString p.2.length ++ " messages"))
      else []
    joinNl
      ((("📧 **Message Summary (" ++ toString messages.total_count ++ " total messages):**") ::
        "" :: p2) ++ p3 ++ p4 ++ p5)

/-- Python `member.split()[0]`: first whitespace-separated word; `none` models
the `IndexError` raised when the member name contains no word. -/
def firstWord (m : String) : Option String :=
  let w := (m.toList.dropWhile isWs).takeWhile (fun c => !isWs c)
  if w.isEmpty then none else some (String.mk w)

/-- Person lookup of `generate_message_response` (rag_engine.py:1408-1414).
`none` = the loop raised (empty member name); `some none` = no member matched;
`some (some m)` = first member whose full or first name occurs in the query. -/
def findMentioned : List String → String → Option (Option String)
  | [], _ => some none
  | m :: rest, ql =>
    match firstWord m with
    | none => none
    | some f =>
      if strContains ql (lowerStr m) || strContains ql (lowerStr f) then some (some m)
      else findMentioned rest ql

/-- `generate_message_response` (rag_engine.py:1399-1426); `none` models the
uncaught `IndexError` on an empty team-member name. -/
def generate_message_response (pd : ParsedData) (query : String) : Option String :=
  let ql := lowerStr query
  match findMentioned pd.team_members ql with
  | none => none
  | some (some p) => some (handle_person_specific_messages pd.messages p query)
  | some none =>
    if strContains ql "today" then some (handle_today_messages pd.messages query)
    else if strContains ql "yesterday" then some (handle_yesterday_messages pd.messages query)
    else some (handle_general_messages pd.messages query)

/-! ## General (LLM-fallback) response (rag_engine.py:1514-1546) -/

def llmFallbackText : String :=
  "⚠️ Unable to process your request right now. Please try again in a moment."

/-- The composed prompt: the `PromptTemplate` literal with `context[:2000]`
and the query substituted. -/
def promptOf (context query : String) : String :=
  "\nYou are a professional project management assistant.\n\nCONTEXT:\n" ++
  String.mk (context.toList.take 2000) ++
  "\n\nUSER QUESTION: \"" ++ query ++
  "\"\n\nBased on the context provided, give a helpful and specific response. If the context contains task information, focus on tasks. If it contains message information, focus on messages. Be direct and actionable.\n\nResponse:\n"

/-- `generate_general_response` (rag_engine.py:1514-1546).  The external model
is a parameter returning `Except` (`.error` = the call raised); the whole call
is inside `try`, and the `except` arm returns the fixed apology. -/
def generate_general_response (llm : String → Except String String)
    (query : String) (pd : ParsedData) (context : String) : String :=
  match llm (promptOf context query) with
  | Except.ok r => pyStrip r
  | Except.error _ => llmFallbackText

/-! ## Aggregation invariants (used by the theorems below) -/

/-- Every record in a personal-task bucket carries the urgency tag that routed
it there (the `upcoming` bucket holds everything else). -/
def TaskBucketsOK (pd : ParsedData) : Prop :=
  (∀ r ∈ pd.tasks.overdue, r.urgency = "OVERDUE") ∧
  (∀ r ∈ pd.tasks.today, r.urgency = "DUE TODAY") ∧
  (∀ r ∈ pd.tasks.upcoming, r.urgency ≠ "OVERDUE" ∧ r.urgency ≠ "DUE TODAY")

/-- Every record in a message recency bucket carries the matching recency
(the `this_week` bucket holds everything that is neither today nor yesterday). -/
def MsgBucketsOK (pd : ParsedData) : Prop :=
  (∀ m ∈ pd.messages.today, m.recency = "today") ∧
  (∀ m ∈ pd.messages.yesterday, m.recency = "yesterday") ∧
  (∀ m ∈ pd.messages.this_week, m.recency ≠ "today" ∧ m.recency ≠ "yesterday")

/-- Every message filed under a sender key in `by_sender` has that sender. -/
def SenderOK (pd : ParsedData) : Prop :=
  ∀ p ∈ pd.messages.by_sender, ∀ m ∈ p.2, m.sender_name = p.1

def AggInv (pd : ParsedData) : Prop := TaskBucketsOK pd ∧ MsgBucketsOK pd ∧ SenderOK pd

/-! ## Concrete fixtures for witnesses and counterexamples -/

def dateW : Date := ⟨2025, 9, 10⟩

def c1query : String := "What should I complete today?"

def c1taskO : TaskRec :=
  { task_name := "Overdue report", urgency := "OVERDUE", priority := "High", status := "Active",
    due_date := "2025-09-01", created_date := "Unknown", task_id := none }

def c1taskT : TaskRec :=
  { task_name := "Ship today", urgency := "DUE TODAY", priority := "Medium", status := "Active",
    due_date := "2025-09-10", created_date := "Unknown", task_id := none }

def c1pd : ParsedData :=
  { emptyParsedData with
    tasks := { overdue := [c1taskO], today := [c1taskT], upcoming := [], total_count := 2 } }

def c10pd : ParsedData :=
  { emptyParsedData with
    tasks := { overdue := [c1taskO], today := [c1taskT], upcoming := [], total_count := 2 } }

def c10query : String := "show my late tasks"

def failingLlm : String → Except String String := fun _ => Except.error "connection refused"

def c5ctx : String :=
  "YOUR ACTIVE TASKS:\n• [OVERDUE] Fix bug (Priority: High, Status: Active, Due: 2025-09-01)\n• [DUE TODAY] Ship release (Priority: Medium, Due: 2025-09-10)"

def c5rec : TaskRec :=
  { task_name := "Fix bug", urgency := "OVERDUE", priority := "High", status := "Active",
    due_date := "2025-09-01", created_date := "Unknown", task_id := none }

def c8msg : MsgRec :=
  { sender_name := "Alice Smith", message_content := "status update",
    timestamp_str := "2025-09-10 09:00", recency := "today", message_count := 1 }

def c8pd : ParsedData :=
  { emptyParsedData with
    messages := { today := [c8msg], yesterday := [], this_week := [], total_count := 1,
                  by_sender := [("Alice Smith", [c8msg])] }
    team_members := ["Alice Smith"] }

def c8query : String := "Did I get any message from Alice today?"

def c9line : String := "From John Doe (0 messages) Latest (2025-09-09 10:22): Fixed issue"

def c9wline : String := "• From Bob: hi"

def c9wrec : MsgRec :=
  { sender_name := "Bob", message_content := "hi", timestamp_str := "recent",
    recency := "this_week", message_count := 1 }

/-! ## Theorems -/

/-- C3: for the query "What should I complete today?" `classify_query_type`
returns `task_query` for every possible team-member list — the classifier never
reads the list, and the query hits the strong task pattern
`what.*should.*complete` before any other rule can fire. -/
theorem c3_complete_today_always_task_query :
    ∀ members : List String,
      classify_query_type "What should I complete today?" members = "task_query" :=
  fun _ => rfl

/-- C3 witness: a concrete non-empty team-member list does not change the
classification (applying `c3_complete_today_always_task_query`). -/
theorem c3_witness :
    classify_query_type "What should I complete today?" ["Alice Smith", "Bob Jones"]
      = "task_query" :=
  c3_complete_today_always_task_query ["Alice Smith", "Bob Jones"]

/-- C4: `parse_task_line` returns `none` exactly when the line is empty after
stripping bullet glyphs and whitespace; a successful head-pattern match fills
unmatched optional fields with the defaults "Medium"/"Active"/"No date"; and a
non-empty line matching no pattern yields the minimal record with urgency
"Unknown" and all defaults. -/
theorem c4_parse_task_line_fallbacks (line : String) :
    (parse_task_line line = none ↔ cleanTaskLine line = "")
    ∧ (∀ u n meta, mheadScan (cleanTaskLine line).toList = some (u, n, meta) →
        parse_task_line line = some (mkMheadRec u n meta)
        ∧ (metaFieldScan "priority:".toList meta.toList = none →
            (mkMheadRec u n meta).priority = "Medium")
        ∧ (metaFieldScan "status:".toList meta.toList = none →
            (mkMheadRec u n meta).status = "Active")
        ∧ (metaDueScan meta.toList = none → (mkMheadRec u n meta).due_date = "No date"))
    ∧ (mheadScan (cleanTaskLine line).toList = none →
        p3Scan (cleanTaskLine line).toList = none →
        cleanTaskLine line ≠ "" →
        parse_task_line line = some
          { task_name := cleanTaskLine line, urgency := "Unknown", priority := "Medium",
            status := "Active", due_date := "No date", created_date := "Unknown",
            task_id := none }) := by
  refine ⟨⟨fun h => ?_, fun h => ?_⟩, fun u n meta hm => ?_, fun hm hp hne => ?_⟩
  · unfold parse_task_line at h
    split at h
    · exact absurd h (by simp)
    · split at h
      · exact absurd h (by simp)
      · split at h
        · next hc => exact eq_of_beq hc
        · exact absurd h (by simp)
  · unfold parse_task_line
    rw [h]
    rfl
  · refine ⟨?_, fun hpm => ?_, fun hsm => ?_, fun hdm => ?_⟩
    · unfold parse_task_line
      rw [hm]
    · simp only [mkMheadRec]
      rw [hpm]
      rfl
    · simp only [mkMheadRec]
      rw [hsm]
      rfl
    · simp only [mkMheadRec]
      rw [hdm]
      rfl
  · unfold parse_task_line
    rw [hm, hp]
    simp [hne]

/-- C4 witness: a concrete bulleted note with no extraction pattern yields the
minimal "Unknown" record (obtained by applying `c4_parse_task_line_fallbacks`). -/
theorem c4_witness :
    parse_task_line "• random note" = some
      { task_name := "random note", urgency := "Unknown", priority := "Medium",
        status := "Active", due_date := "No date", created_date := "Unknown",
        task_id := none } :=
  (c4_parse_task_line_fallbacks "• random note").2.2 (by rfl) (by rfl) (by decide)

/-- C10: whenever the query contains "overdue", "past due" or "late"
(case-insensitively) and the personal overdue bucket is non-empty,
`generate_task_response` returns the overdue handler's output — this keyword
check precedes the bucket-based dispatch, so due-today tasks cannot shadow it. -/
theorem c10_overdue_keyword_short_circuit (today : Date) (query : String) (pd : ParsedData)
    (hk : hasOverdueKw query = true) (ho : pd.tasks.overdue ≠ []) :
    generate_task_response today query pd = handle_overdue_tasks today pd.tasks.overdue query := by
  have ho' : pd.tasks.overdue.isEmpty = false := by
    cases h : pd.tasks.overdue with
    | nil => exact absurd h ho
    | cons a l => simp
  simp [generate_task_response, hk, ho']

/-- C10 witness: with an overdue and a due-today task both present, the query
"show my late tasks" is answered by the overdue handler. -/
theorem c10_witness :
    generate_task_response dateW c10query c10pd
      = handle_overdue_tasks dateW c10pd.tasks.overdue c10query :=
  c10_overdue_keyword_short_circuit dateW c10query c10pd (by decide) (by decide)

/-- C1 counterexample: with the overdue bucket non-empty and a due-today task
present, the task-query-classified query "What should I complete today?"
(containing no overdue keyword) is answered by the due-today handler, whose
text never even mentions the overdue task — the claimed overdue-first
precedence fails. -/
theorem c1_counterexample :
    classify_query_type c1query [] = "task_query"
    ∧ c1pd.tasks.overdue ≠ []
    ∧ c1pd.tasks.today ≠ []
    ∧ generate_task_response dateW c1query c1pd = handle_today_tasks c1pd.tasks.today c1query
    ∧ strContains (generate_task_response dateW c1query c1pd) "Overdue report" = false := by
  exact ⟨rfl, by decide, by decide, rfl, by decide⟩

/-- C1 amended: overdue tasks take priority only when the query explicitly
contains an overdue keyword ("overdue"/"past due"/"late"); otherwise due-today
tasks take precedence over overdue ones, which are shown only when no task is
due today. -/
theorem c1_amended_dispatch (today : Date) (query : String) (pd : ParsedData)
    (ho : pd.tasks.overdue ≠ []) :
    (hasOverdueKw query = true →
      generate_task_response today query pd = handle_overdue_tasks today pd.tasks.overdue query)
    ∧ (hasOverdueKw query = false → pd.tasks.today ≠ [] →
      generate_task_response today query pd = handle_today_tasks pd.tasks.today query)
    ∧ (hasOverdueKw query = false → pd.tasks.today = [] →
      generate_task_response today query pd
        = handle_overdue_tasks today pd.tasks.overdue query) := by
  have ho' : pd.tasks.overdue.isEmpty = false := by
    cases h : pd.tasks.overdue with
    | nil => exact absurd h ho
    | cons a l => simp
  refine ⟨fun hk => ?_, fun hk ht => ?_, fun hk ht => ?_⟩
  · simp [generate_task_response, hk, ho']
  · have ht' : pd.tasks.today.isEmpty = false := by
      cases h : pd.tasks.today with
      | nil => exact absurd h ht
      | cons a l => simp
    simp [generate_task_response, hk, ht']
  · simp [generate_task_response, hk, ht, ho']

/-- C1 amended witness: on the concrete fixture, the keyword-free query is
answered by the due-today handler (applying `c1_amended_dispatch`). -/
theorem c1_amended_witness :
    generate_task_response dateW c1query c1pd = handle_today_tasks c1pd.tasks.today c1query :=
  (c1_amended_dispatch dateW c1query c1pd (by decide)).2.1 (by decide) (by decide)

/-- C7: if the external language-model call raises (an `Except.error` result of
the `llm` parameter), `generate_general_response` returns the fixed apologetic
fallback string; the function is total, so no exception propagates. -/
theorem c7_llm_failure_fallback (llm : String → Except String String)
    (query context : String) (pd : ParsedData) (e : String)
    (h : llm (promptOf context query) = Except.error e) :
    generate_general_response llm query pd context = llmFallbackText := by
  simp [generate_general_response, h]

/-- C7 witness: a concretely failing model yields the fallback text. -/
theorem c7_witness :
    generate_general_response failingLlm "hello" emptyParsedData "some context"
      = llmFallbackText :=
  c7_llm_failure_fallback failingLlm "hello" "some context" emptyParsedData
    "connection refused" rfl

/-- C6: `parse_user_context` is a pure function of the context string and the
current date — the embedding carries no state between invocations, so two runs
on the same string (at the same date) are structurally identical. -/
theorem c6_parse_deterministic (today : Date) (s : String) (r₁ r₂ : ParsedData)
    (h₁ : parse_user_context today s = r₁) (h₂ : parse_user_context today s = r₂) :
    r₁ = r₂ :=
  h₁.symm.trans h₂

/-- C6 witness: two runs on a concrete context agree. -/
theorem c6_witness :
    parse_user_context dateW c5ctx = parse_user_context dateW c5ctx :=
  c6_parse_deterministic dateW c5ctx _ _ rfl rfl

/-- C2: an empty (or whitespace-only) context aggregates to entirely empty
buckets with zero counts, and the task response generated from that aggregation
is the fixed "no tasks found" text, identical for every query; the whole path
is total, so nothing is raised. -/
theorem c2_empty_context (today : Date) (s q : String) (h : pyStrip s = "") :
    parse_user_context today s = emptyParsedData
    ∧ (parse_user_context today s).tasks.overdue = []
    ∧ (parse_user_context today s).tasks.today = []
    ∧ (parse_user_context today s).tasks.upcoming = []
    ∧ (parse_user_context today s).tasks.total_count = 0
    ∧ (parse_user_context today s).team_tasks = []
    ∧ (parse_user_context today s).messages.total_count = 0
    ∧ generate_task_response today q (parse_user_context today s) = handle_no_tasks q
    ∧ (∀ q' : String, handle_no_tasks q = handle_no_tasks q') := by
  have hp : parse_user_context today s = emptyParsedData := by
    simp [parse_user_context, h]
  refine ⟨hp, ?_, ?_, ?_, ?_, ?_, ?_, ?_, fun _ => rfl⟩
  · rw [hp]; rfl
  · rw [hp]; rfl
  · rw [hp]; rfl
  · rw [hp]; rfl
  · rw [hp]; rfl
  · rw [hp]; rfl
  · rw [hp]
    simp [generate_task_response, emptyParsedData]

/-- C2 witness: the literally empty context with a task-flavored query. -/
theorem c2_witness :
    parse_user_context dateW "" = emptyParsedData
    ∧ generate_task_response dateW "What should I complete today?" (parse_user_context dateW "")
        = handle_no_tasks "What should I complete today?" :=
  ⟨(c2_empty_context dateW "" "What should I complete today?" rfl).1,
   (c2_empty_context dateW "" "What should I complete today?" rfl).2.2.2.2.2.2.2.1⟩

/-! ## Invariant preservation through the aggregation fold -/

theorem aggInv_empty : AggInv emptyParsedData :=
  ⟨⟨fun r hr => absurd hr (List.not_mem_nil r), fun r hr => absurd hr (List.not_mem_nil r),
    fun r hr => absurd hr (List.not_mem_nil r)⟩,
   ⟨fun m hm => absurd hm (List.not_mem_nil m), fun m hm => absurd hm (List.not_mem_nil m),
    fun m hm => absurd hm (List.not_mem_nil m)⟩,
   fun p hp => absurd hp (List.not_mem_nil p)⟩

theorem addPersonalTask_fields (pd : ParsedData) (t : TaskRec) :
    (addPersonalTask pd t).messages = pd.messages
    ∧ (((addPersonalTask pd t).tasks.overdue = pd.tasks.overdue ++ [t]
          ∧ t.urgency = "OVERDUE"
          ∧ (addPersonalTask pd t).tasks.today = pd.tasks.today
          ∧ (addPersonalTask pd t).tasks.upcoming = pd.tasks.upcoming)
       ∨ ((addPersonalTask pd t).tasks.today = pd.tasks.today ++ [t]
          ∧ t.urgency = "DUE TODAY"
          ∧ (addPersonalTask pd t).tasks.overdue = pd.tasks.overdue
          ∧ (addPersonalTask pd t).tasks.upcoming = pd.tasks.upcoming)
       ∨ ((addPersonalTask pd t).tasks.upcoming = pd.tasks.upcoming ++ [t]
          ∧ t.urgency ≠ "OVERDUE" ∧ t.urgency ≠ "DUE TODAY"
          ∧ (addPersonalTask pd t).tasks.overdue = pd.tasks.overdue
          ∧ (addPersonalTask pd t).tasks.today = pd.tasks.today)) := by
  refine ⟨rfl, ?_⟩
  by_cases h1 : t.urgency = "OVERDUE"
  · left
    simp [addPersonalTask, h1]
  · by_cases h2 : t.urgency = "DUE TODAY"
    · right; left
      simp [addPersonalTask, beq_iff_eq, h1, h2]
    · right; right
      simp [addPersonalTask, beq_iff_eq, h1, h2]

theorem addPersonalTask_inv (pd : ParsedData) (t : TaskRec) (h : AggInv pd) :
    AggInv (addPersonalTask pd t) := by
  obtain ⟨⟨h1, h2, h3⟩, hm, hs⟩ := h
  obtain ⟨hmsg, hcases⟩ := addPersonalTask_fields pd t
  refine ⟨⟨?_, ?_, ?_⟩, ?_, ?_⟩
  · rcases hcases with ⟨ho, hu, _, _⟩ | ⟨_, _, ho, _⟩ | ⟨_, _, _, ho, _⟩
    · rw [ho]
      intro r hr
      rcases List.mem_append.1 hr with hr | hr
      · exact h1 r hr
      · rw [List.mem_singleton.1 hr]; exact hu
    · rw [ho]; exact h1
    · rw [ho]; exact h1
  · rcases hcases with ⟨_, _, ht, _⟩ | ⟨ht, hu, _, _⟩ | ⟨_, _, _, _, ht⟩
    · rw [ht]; exact h2
    · rw [ht]
      intro r hr
      rcases List.mem_append.1 hr with hr | hr
      · exact h2 r hr
      · rw [List.mem_singleton.1 hr]; exact hu
    · rw [ht]; exact h2
  · rcases hcases with ⟨_, _, _, hu'⟩ | ⟨_, _, _, hu'⟩ | ⟨hu', hno, hnt, _, _⟩
    · rw [hu']; exact h3
    · rw [hu']; exact h3
    · rw [hu']
      intro r hr
      rcases List.mem_append.1 hr with hr | hr
      · exact h3 r hr
      · rw [List.mem_singleton.1 hr]; exact ⟨hno, hnt⟩
  · unfold MsgBucketsOK
    rw [hmsg]
    exact hm
  · unfold SenderOK
    rw [hmsg]
    exact hs

theorem addTeamTask_inv (pd : ParsedData) (u : String) (t : TaskRec) (h : AggInv pd) :
    AggInv (addTeamTask pd u t) := h

theorem registerUser_inv (st : PState) (u : String) (h : AggInv st.pd) :
    AggInv (registerUser st u).pd := h

theorem bySenderAdd_ok (k : String) (m : MsgRec) (hm : m.sender_name = k) :
    ∀ l : List (String × List MsgRec),
      (∀ p ∈ l, ∀ x ∈ p.2, x.sender_name = p.1) →
      ∀ p ∈ bySenderAdd k m l, ∀ x ∈ p.2, x.sender_name = p.1 := by
  intro l
  induction l with
  | nil =>
    intro _ p hp x hx
    simp only [bySenderAdd, List.mem_singleton] at hp
    subst hp
    simp only [List.mem_singleton] at hx
    subst hx
    exact hm
  | cons p0 rest ih =>
    intro hinv p hp x hx
    simp only [bySenderAdd] at hp
    by_cases hk : p0.1 == k
    · rw [if_pos hk] at hp
      rcases List.mem_cons.1 hp with hp | hp
      · subst hp
        rcases List.mem_append.1 hx with hx | hx
        · exact hinv p0 (List.mem_cons_self p0 rest) x hx
        · rw [List.mem_singleton.1 hx]
          exact hm.trans (eq_of_beq hk).symm
      · exact hinv p (List.mem_cons_of_mem p0 hp) x hx
    · rw [if_neg hk] at hp
      rcases List.mem_cons.1 hp with hp | hp
      · subst hp
        exact hinv _ (List.mem_cons_self _ _) x hx
      · exact ih (fun q hq => hinv q (List.mem_cons_of_mem p0 hq)) p hp x hx

theorem addMessage_fields (pd : ParsedData) (m : MsgRec) :
    (addMessage pd m).tasks = pd.tasks
    ∧ (addMessage pd m).messages.by_sender = bySenderAdd m.sender_name m pd.messages.by_sender
    ∧ (((addMessage pd m).messages.today = pd.messages.today ++ [m]
          ∧ m.recency = "today"
          ∧ (addMessage pd m).messages.yesterday = pd.messages.yesterday
          ∧ (addMessage pd m).messages.this_week = pd.messages.this_week)
       ∨ ((addMessage pd m).messages.yesterday = pd.messages.yesterday ++ [m]
          ∧ m.recency = "yesterday"
          ∧ (addMessage pd m).messages.today = pd.messages.today
          ∧ (addMessage pd m).messages.this_week = pd.messages.this_week)
       ∨ ((addMessage pd m).messages.this_week = pd.messages.this_week ++ [m]
          ∧ m.recency ≠ "today" ∧ m.recency ≠ "yesterday"
          ∧ (addMessage pd m).messages.today = pd.messages.today
          ∧ (addMessage pd m).messages.yesterday = pd.messages.yesterday)) := by
  refine ⟨rfl, ?_, ?_⟩
  · by_cases h1 : m.recency = "today"
    · simp [addMessage, h1]
    · by_cases h2 : m.recency = "yesterday"
      · simp [addMessage, beq_iff_eq, h1, h2]
      · simp [addMessage, beq_iff_eq, h1, h2]
  · by_cases h1 : m.recency = "today"
    · left
      simp [addMessage, h1]
    · by_cases h2 : m.recency = "yesterday"
      · right; left
        simp [addMessage, beq_iff_eq, h1, h2]
      · right; right
        simp [addMessage, beq_iff_eq, h1, h2]

theorem addMessage_inv (pd : ParsedData) (m : MsgRec) (h : AggInv pd) :
    AggInv (addMessage pd m) := by
  obtain ⟨ht, ⟨h1, h2, h3⟩, hs⟩ := h
  obtain ⟨htasks, hsend, hcases⟩ := addMessage_fields pd m
  refine ⟨?_, ⟨?_, ?_, ?_⟩, ?_⟩
  · unfold TaskBucketsOK
    rw [htasks]
    exact ht
  · rcases hcases with ⟨ho, hu, _, _⟩ | ⟨_, _, ho, _⟩ | ⟨_, _, _, ho, _⟩
    · rw [ho]
      intro x hx
      rcases List.mem_append.1 hx with hx | hx
      · exact h1 x hx
      · rw [List.mem_singleton.1 hx]; exact hu
    · rw [ho]; exact h1
    · rw [ho]; exact h1
  · rcases hcases with ⟨_, _, hy, _⟩ | ⟨hy, hu, _, _⟩ | ⟨_, _, _, _, hy⟩
    · rw [hy]; exact h2
    · rw [hy]
      intro x hx
      rcases List.mem_append.1 hx with hx | hx
      · exact h2 x hx
      · rw [List.mem_singleton.1 hx]; exact hu
    · rw [hy]; exact h2
  · rcases hcases with ⟨_, _, _, hw⟩ | ⟨_, _, _, hw⟩ | ⟨hw, hno, hnt, _, _⟩
    · rw [hw]; exact h3
    · rw [hw]; exact h3
    · rw [hw]
      intro x hx
      rcases List.mem_append.1 hx with hx | hx
      · exact h3 x hx
      · rw [List.mem_singleton.1 hx]; exact ⟨hno, hnt⟩
  · unfold SenderOK
    rw [hsend]
    exact bySenderAdd_ok m.sender_name m rfl pd.messages.by_sender hs

theorem handleBullet_inv (today : Date) (st : PState) (line : String) (h : AggInv st.pd) :
    AggInv (handleBullet today st line).pd := by
  unfold handleBullet
  split
  · split
    · split
      · exact addPersonalTask_inv _ _ h
      · exact h
    · split
      · split
        · split
          · exact addTeamTask_inv _ _ _ h
          · exact h
        · exact h
      · exact h
    · split
      · exact addMessage_inv _ _ h
      · exact h
    · exact h
  · exact h

theorem pstep_inv (today : Date) (st : PState) (raw : String) (h : AggInv st.pd) :
    AggInv (pstep today st raw).pd := by
  simp only [pstep]
  split
  · exact h
  · split
    · exact h
    · split
      · exact h
      · split
        · exact h
        · split
          · exact h
          · split
            · split
              · split
                · exact registerUser_inv _ _ h
                · exact registerUser_inv _ _ h
              · split
                · exact handleBullet_inv _ _ _ h
                · exact handleBullet_inv _ _ _ h
            · exact handleBullet_inv _ _ _ h

theorem foldl_pstep_inv (today : Date) :
    ∀ (lines : List String) (st : PState), AggInv st.pd →
      AggInv ((lines.foldl (pstep today) st).pd) := by
  intro lines
  induction lines with
  | nil => exact fun st h => h
  | cons l rest ih => exact fun st h => ih _ (pstep_inv today st l h)

/-- The aggregation invariant holds of every parsed context. -/
theorem parse_user_context_inv (today : Date) (s : String) :
    AggInv (parse_user_context today s) := by
  unfold parse_user_context
  split
  · exact aggInv_empty
  · exact foldl_pstep_inv today _ initPState aggInv_empty

/-- C5: every task record in the parsed aggregation sits in exactly one of the
personal urgency buckets — characterized by its urgency tag — and every message
record sits in exactly one recency bucket; no record can belong to two buckets. -/
theorem c5_bucket_exclusivity (today : Date) (s : String) :
    (∀ r ∈ (parse_user_context today s).tasks.overdue, r.urgency = "OVERDUE")
    ∧ (∀ r ∈ (parse_user_context today s).tasks.today, r.urgency = "DUE TODAY")
    ∧ (∀ r ∈ (parse_user_context today s).tasks.upcoming,
        r.urgency ≠ "OVERDUE" ∧ r.urgency ≠ "DUE TODAY")
    ∧ (∀ r : TaskRec, r ∈ (parse_user_context today s).tasks.overdue →
        r ∉ (parse_user_context today s).tasks.today)
    ∧ (∀ r : TaskRec, r ∈ (parse_user_context today s).tasks.overdue →
        r ∉ (parse_user_context today s).tasks.upcoming)
    ∧ (∀ r : TaskRec, r ∈ (parse_user_context today s).tasks.today →
        r ∉ (parse_user_context today s).tasks.upcoming)
    ∧ (∀ m ∈ (parse_user_context today s).messages.today, m.recency = "today")
    ∧ (∀ m ∈ (parse_user_context today s).messages.yesterday, m.recency = "yesterday")
    ∧ (∀ m ∈ (parse_user_context today s).messages.this_week,
        m.recency ≠ "today" ∧ m.recency ≠ "yesterday")
    ∧ (∀ m : MsgRec, m ∈ (parse_user_context today s).messages.today →
        m ∉ (parse_user_context today s).messages.yesterday)
    ∧ (∀ m : MsgRec, m ∈ (parse_user_context today s).messages.today →
        m ∉ (parse_user_context today s).messages.this_week)
    ∧ (∀ m : MsgRec, m ∈ (parse_user_context today s).messages.yesterday →
        m ∉ (parse_user_context today s).messages.this_week) := by
  obtain ⟨⟨h1, h2, h3⟩, ⟨m1, m2, m3⟩, _⟩ := parse_user_context_inv today s
  refine ⟨h1, h2, h3, ?_, ?_, ?_, m1, m2, m3, ?_, ?_, ?_⟩
  · intro r hro hrt
    exact absurd ((h1 r hro).symm.trans (h2 r hrt)) (by decide)
  · intro r hro hru
    exact absurd (h1 r hro) (h3 r hru).1
  · intro r hrt hru
    exact absurd (h2 r hrt) (h3 r hru).2
  · intro m hmt hmy
    exact absurd ((m1 m hmt).symm.trans (m2 m hmy)) (by decide)
  · intro m hmt hmw
    exact absurd (m1 m hmt) (m3 m hmw).1
  · intro m hmy hmw
    exact absurd (m2 m hmy) (m3 m hmw).2

/-- C5 witness: on a concrete context the overdue record is provably absent
from the due-today bucket (applying `c5_bucket_exclusivity`). -/
theorem c5_witness : c5rec ∉ (parse_user_context dateW c5ctx).tasks.today :=
  (c5_bucket_exclusivity dateW c5ctx).2.2.2.1 c5rec (by decide)

/-! ## C8: person-specific message responses -/

theorem mem_foldl_append (l : List (String × List MsgRec)) (x : MsgRec) :
    ∀ acc : List MsgRec,
      (x ∈ l.foldl (fun a p => a ++ p.2) acc ↔ x ∈ acc ∨ ∃ p ∈ l, x ∈ p.2) := by
  induction l with
  | nil => intro acc; simp
  | cons p rest ih =>
    intro acc
    rw [List.foldl_cons, ih (acc ++ p.2)]
    simp [List.mem_append, or_assoc]

theorem personMessages_sender (msgs : Messages) (person : String)
    (hs : ∀ p ∈ msgs.by_sender, ∀ m ∈ p.2, m.sender_name = p.1) :
    ∀ m ∈ personMessages msgs person,
      strContains (lowerStr m.sender_name) (lowerStr person) = true := by
  intro m hm
  unfold personMessages at hm
  rw [mem_foldl_append] at hm
  rcases hm with h | ⟨p, hp, hmp⟩
  · exact absurd h (List.not_mem_nil m)
  · have hpf := List.mem_filter.1 hp
    rw [hs p hpf.1 m hmp]
    exact hpf.2

/-- The person-specific empty text differs from the global "no messages" text
for every person: the two fixed prefixes already diverge. -/
theorem noMsgsFrom_ne (p : String) : noMsgsFromText p ≠ noMessagesText := by
  intro h
  have h2 := congrArg (fun s => s.data.take 25) h
  simp only [noMsgsFromText, noMessagesText, String.data_append] at h2
  rw [List.append_assoc, List.take_append_of_le_length (by decide)] at h2
  exact absurd h2 (by decide)

/-- C8: when the query names a team member, `generate_message_response`
delegates to the person-specific handler; every message that handler collects
has a sender containing the person's name (case-insensitively); and when no
such message exists the response is the per-person empty text, which differs
from the "no messages at all" text for every person. -/
theorem c8_person_specific_messages (pd : ParsedData) (query p : String)
    (hs : SenderOK pd)
    (hm : findMentioned pd.team_members (lowerStr query) = some (some p)) :
    generate_message_response pd query = some (handle_person_specific_messages pd.messages p query)
    ∧ (∀ m ∈ personMessages pd.messages p,
        strContains (lowerStr m.sender_name) (lowerStr p) = true)
    ∧ (personMessages pd.messages p = [] →
        handle_person_specific_messages pd.messages p query = noMsgsFromText p)
    ∧ noMsgsFromText p ≠ noMessagesText := by
  refine ⟨?_, personMessages_sender pd.messages p hs, fun hempty => ?_, noMsgsFrom_ne p⟩
  · simp [generate_message_response, hm]
  · simp [handle_person_specific_messages, hempty]

/-- C8 witness: the concrete query "Did I get any message from Alice today?"
resolves to team member "Alice Smith" and is answered person-specifically
(applying `c8_person_specific_messages`). -/
theorem c8_witness :
    generate_message_response c8pd c8query
      = some (handle_person_specific_messages c8pd.messages "Alice Smith" c8query) :=
  (c8_person_specific_messages c8pd c8query "Alice Smith"
    (by unfold SenderOK; decide) (by decide)).1

/-! ## C9: message-count lower bound -/

/-- C9 counterexample: a line announcing "(0 messages)" produces a record whose
count is 0, violating the claimed `count ≥ 1` invariant. -/
theorem c9_counterexample :
    (parse_message_line dateW c9line).map (fun r => r.message_count) = some 0 := by
  rfl

/-- C9 amended: every record produced by `parse_message_line` has count ≥ 1
unless the aggregated-count pattern matched with a stated count of 0, in which
case the count is that stated 0. -/
theorem msgExtract_count (cs : List Char) (s c ts : String) (ds : Option String) (n : Nat)
    (h : msgExtract cs = some (s, c, ts, ds, n)) :
    n = 1 ∨ ∃ g : String × Nat × String × String, pat0Scan cs = some g ∧ g.2.1 = n := by
  unfold msgExtract at h
  cases hp0 : pat0Scan cs with
  | some g =>
    obtain ⟨s0, n0, ts0, c0⟩ := g
    rw [hp0] at h
    dsimp only at h
    have heq := Option.some_inj.1 h
    simp only [Prod.mk.injEq] at heq
    right
    refine ⟨(s0, n0, ts0, c0), rfl, ?_⟩
    exact heq.2.2.2.2
  | none =>
    rw [hp0] at h
    left
    cases hp1 : pat1Scan cs with
    | some g =>
      obtain ⟨a, b, d⟩ := g
      rw [hp1] at h
      dsimp only at h
      have heq := Option.some_inj.1 h
      simp only [Prod.mk.injEq] at heq
      exact heq.2.2.2.2.symm
    | none =>
      rw [hp1] at h
      cases hp2 : pat2Scan cs with
      | some g =>
        obtain ⟨a, b, d, e⟩ := g
        rw [hp2] at h
        dsimp only at h
        have heq := Option.some_inj.1 h
        simp only [Prod.mk.injEq] at heq
        exact heq.2.2.2.2.symm
      | none =>
        rw [hp2] at h
        cases hp3 : pat3Scan cs with
        | some g =>
          obtain ⟨a, b⟩ := g
          rw [hp3] at h
          dsimp only at h
          have heq := Option.some_inj.1 h
          simp only [Prod.mk.injEq] at heq
          exact heq.2.2.2.2.symm
        | none =>
          rw [hp3] at h
          cases hp4 : pat4Scan cs with
          | some g =>
            obtain ⟨a, b⟩ := g
            rw [hp4] at h
            dsimp only at h
            have heq := Option.some_inj.1 h
            simp only [Prod.mk.injEq] at heq
            exact heq.2.2.2.2.symm
          | none =>
            rw [hp4] at h
            exact absurd h (by simp)

theorem c9_amended_count (today : Date) (line : String) (r : MsgRec)
    (h : parse_message_line today line = some r) :
    1 ≤ r.message_count ∨
      ∃ g : String × Nat × String × String, pat0Scan line.toList = some g ∧ g.2.1 = 0 := by
  unfold parse_message_line at h
  cases hE : msgExtract line.toList with
  | none =>
    rw [hE] at h
    exact absurd h (by simp)
  | some q =>
    obtain ⟨s, c, ts, ds, n⟩ := q
    rw [hE] at h
    dsimp only at h
    split at h
    · exact absurd h (by simp)
    · have hr := (Option.some_inj.1 h).symm
      have hcount : r.message_count = n := by rw [hr]
      rcases msgExtract_count line.toList s c ts ds n hE with h1 | ⟨g, hg, hgn⟩
      · left
        rw [hcount, h1]
      · by_cases hn : n = 0
        · right
          exact ⟨g, hg, by rw [hgn, hn]⟩
        · left
          rw [hcount]
          exact Nat.one_le_iff_ne_zero.2 hn

/-- C9 amended witness: a plain bulleted message parses with count 1
(applying `c9_amended_count`). -/
theorem c9_amended_witness :
    1 ≤ c9wrec.message_count ∨
      ∃ g : String × Nat × String × String, pat0Scan c9wline.toList = some g ∧ g.2.1 = 0 :=
  c9_amended_count dateW c9wline c9wrec (by rfl)

end Rag
